import Mathlib

/-!
Shallow embedding of `src/backend/main.go` (a Go CRUD backend over one
`users` table, routed with gorilla/mux) and proofs about it.

Modelling conventions:
* `log.Fatal` is `log.Print` followed by `os.Exit(1)` (Go standard library),
  so it is modelled by setting a `terminated` flag on the process state;
  every later effect (header/status/body writes, SQL calls) is a no-op once
  `terminated` is set, which makes statements after a `log.Fatal` dead at
  runtime exactly as in Go.
* `json.NewDecoder(r.Body).Decode(&user)` with its error discarded is
  modelled by `Option User`: `some u` when the body decodes, `none` when it
  fails, in which case `user` keeps Go's zero value (0, "", "").
* Each `database/sql` operation is a field of a `DB` record giving its
  result (`Except` for error returns); handlers record the call they issue.
* The router is modelled from gorilla/mux's documented semantics: routes are
  tested in registration order and the first match wins; `\x7bid\x7d`
  matches one non-empty path segment.
-/

namespace GoNext

/-- Go `type User struct { Id int; Name string; Email string }`. -/
structure User where
  id : Int
  name : String
  email : String
  deriving Repr, DecidableEq

/-- Go's zero value for `User`: `var user User`. -/
def zeroUser : User := ⟨0, (""), ("")⟩

/-- The SQL statements the handlers issue, with their bound arguments. -/
inductive SqlCall where
  | insert (name email : String)
  | selectById (id : String)
  | update (name email id : String)
  | delete (id : String)
  | selectAll
  deriving Repr, DecidableEq

/-- Per-request process/response state: the `http.ResponseWriter` plus a
`terminated` flag recording that `os.Exit` ran (via `log.Fatal`). -/
structure ProcState where
  terminated : Bool
  statusWritten : Option Nat
  headers : List (String × String)
  body : List String
  sqlCalls : List SqlCall
  deriving Repr, DecidableEq

/-- Fresh state at the start of a request. -/
def ProcState.init : ProcState := ⟨false, none, [], [], []⟩

/-- `log.Fatal(...)`: prints and exits the process; nothing runs after it. -/
def logFatal (s : ProcState) : ProcState :=
  if s.terminated then s else { s with terminated := true }

/-- `w.WriteHeader(code)`: sets the status once; a second call is ignored
(Go: "superfluous response.WriteHeader call"); dead after `os.Exit`. -/
def writeHeader (code : Nat) (s : ProcState) : ProcState :=
  if s.terminated then s
  else
    match s.statusWritten with
    | some _ => s
    | none => { s with statusWritten := some code }

/-- `w.Header().Set(k, v)`: replaces any existing value for the key. -/
def setHeader (k v : String) (s : ProcState) : ProcState :=
  if s.terminated then s
  else { s with headers := s.headers.filter (fun p => p.1 ≠ k) ++ [(k, v)] }

/-- A body write (`fmt.Fprintln` / `json.Encoder.Encode`): the first write
implicitly sends status 200 if `WriteHeader` was not called. -/
def writeBody (chunk : String) (s : ProcState) : ProcState :=
  if s.terminated then s
  else
    match s.statusWritten with
    | some _ => { s with body := s.body ++ [chunk] }
    | none => { s with statusWritten := some 200, body := s.body ++ [chunk] }

/-- Record that a SQL statement was sent to the database. -/
def recordSql (c : SqlCall) (s : ProcState) : ProcState :=
  if s.terminated then s else { s with sqlCalls := s.sqlCalls ++ [c] }

/-- Results of the database operations the handlers perform, one field per
`database/sql` call site in `main.go`. -/
structure DB where
  insertUser : String → String → Except String Int
  selectUserById : String → Except String User
  updateUserRow : String → String → String → Except String Unit
  deleteUserRow : String → Except String Unit
  selectAllUsers : Except String (List User)

/-- An HTTP request as the handlers see it: method, concrete path, and the
outcome of JSON-decoding its body into `User` (`none` = malformed body). -/
structure Request where
  method : String
  path : String
  body : Option User
  deriving Repr, DecidableEq

/-- JSON object for one user, as `encoding/json` renders the `User` struct. -/
def encodeUserObj (u : User) : String :=
  ("\x7b\"id\":") ++ toString u.id ++ (",\"name\":\"") ++ u.name ++
    ("\",\"email\":\"") ++ u.email ++ ("\"\x7d")

/-- `json.NewEncoder(w).Encode(user)`: the object plus a trailing newline. -/
def encodeUser (u : User) : String := encodeUserObj u ++ ("\n")

/-- `json.NewEncoder(w).Encode(users)` for a `[]User`. -/
def encodeUsers (us : List User) : String :=
  ("[") ++ String.intercalate (",") (us.map encodeUserObj) ++ ("]\n")

/-- `deleteUser` handler (main.go:86): decodes and ignores the body, runs
`DELETE FROM users WHERE id=$1`; on error `log.Fatal` then a (dead)
`WriteHeader(500)`; on success `WriteHeader(200)` with empty body. -/
def deleteUser (body : Option User) (id : String) (db : DB) (s : ProcState) :
    ProcState :=
  let _user := body.getD zeroUser
  let s := recordSql (SqlCall.delete id) s
  match db.deleteUserRow id with
  | Except.error _ =>
      let s := logFatal s
      let s := writeHeader 500 s
      s
  | Except.ok _ => writeHeader 200 s

/-- `updateUser` handler (main.go:106): decode error ignored, `UPDATE` with
the (possibly zero-valued) fields, then re-`SELECT` the row; each error path
is `log.Fatal` followed by a dead `WriteHeader(500)`. -/
def updateUser (body : Option User) (id : String) (db : DB) (s : ProcState) :
    ProcState :=
  let user := body.getD zeroUser
  let s := recordSql (SqlCall.update user.name user.email id) s
  match db.updateUserRow user.name user.email id with
  | Except.error _ =>
      let s := logFatal s
      let s := writeHeader 500 s
      s
  | Except.ok _ =>
      let s := recordSql (SqlCall.selectById id) s
      match db.selectUserById id with
      | Except.error _ =>
          let s := logFatal s
          let s := writeHeader 500 s
          s
      | Except.ok updatedUser => writeBody (encodeUser updatedUser) s

/-- `createUsers` handler (main.go:134): decode error ignored, `INSERT ...
RETURNING id` with the decoded name/email, `Scan` overwrites `user.Id` with
the generated id, then the user is encoded back. -/
def createUsers (body : Option User) (db : DB) (s : ProcState) : ProcState :=
  let user := body.getD zeroUser
  let s := recordSql (SqlCall.insert user.name user.email) s
  match db.insertUser user.name user.email with
  | Except.error _ =>
      let s := logFatal s
      let s := writeHeader 500 s
      s
  | Except.ok newId => writeBody (encodeUser { user with id := newId }) s

/-- `getUsersId` handler (main.go:150): `SELECT * FROM users WHERE id=$1`;
on `Scan` error (including `sql.ErrNoRows`) `log.Fatal` then a dead
`WriteHeader(404)`; on success the user is encoded. -/
def getUsersId (id : String) (db : DB) (s : ProcState) : ProcState :=
  let s := recordSql (SqlCall.selectById id) s
  match db.selectUserById id with
  | Except.error _ =>
      let s := logFatal s
      let s := writeHeader 404 s
      s
  | Except.ok user => writeBody (encodeUser user) s

/-- `getUsers` handler (main.go:168): `SELECT * FROM users`; on query error
`log.Fatal` with no `return`, so control would fall through to the scan loop
and the encode of the (empty) `users` slice — dead once the process exited;
on success the scanned rows are encoded. -/
def getUsers (db : DB) (s : ProcState) : ProcState :=
  let s := recordSql SqlCall.selectAll s
  match db.selectAllUsers with
  | Except.error _ =>
      let s := logFatal s
      writeBody (encodeUsers []) s
  | Except.ok rows => writeBody (encodeUsers rows) s

/-- `EnableCORS` middleware (main.go:211): sets the three CORS headers, and
short-circuits `OPTIONS` requests with a 200 before the wrapped handler. -/
def EnableCORS (next : Request → ProcState → ProcState) (r : Request)
    (s : ProcState) : ProcState :=
  let s := setHeader ("Access-Control-Allow-Origin") ("*") s
  let s := setHeader ("Access-Control-Allow-Methods")
    ("GET, PUT, PATCH, POST, DELETE") s
  let s := setHeader ("Access-Control-Allow-Headers") ("Content-Type") s
  if r.method = ("OPTIONS") then writeHeader 200 s
  else next r s

/-- `homeHandler` (main.go:227): `fmt.Fprintln` of a plain-text greeting. -/
def homeHandler (_r : Request) (s : ProcState) : ProcState :=
  writeBody ("Welcome to the Backend Service in Go!\n") s

/-- The anonymous second `/` handler (main.go:37): sets the JSON content
type and encodes `\x7b"Message": "Welcome to the Backend Service in Go!"\x7d`. -/
def jsonWelcome (_r : Request) (s : ProcState) : ProcState :=
  let s := setHeader ("Content-Type") ("application/json") s
  writeBody ("\x7b\"Message\":\"Welcome to the Backend Service in Go!\"\x7d\n") s

/-- Tags naming the handlers bound to routes in `main`. -/
inductive HandlerTag where
  | corsHome
  | jsonWelcomeTag
  | listUsers
  | createUser
  | getUserById
  | updateUserById
  | deleteUserById
  deriving Repr, DecidableEq

/-- One gorilla/mux route: path template, optional method restriction
(`.Methods(...)`), and its handler. -/
structure Route where
  template : String
  methodRestriction : Option String
  handler : HandlerTag
  deriving Repr, DecidableEq

/-- The route table in registration order (main.go:34-49). -/
def routes : List Route :=
  [ ⟨("/"), none, HandlerTag.corsHome⟩,
    ⟨("/"), none, HandlerTag.jsonWelcomeTag⟩,
    ⟨("/api/go/users"), some ("GET"), HandlerTag.listUsers⟩,
    ⟨("/api/go/users"), some ("POST"), HandlerTag.createUser⟩,
    ⟨("/api/go/users/\x7bid\x7d"), some ("GET"), HandlerTag.getUserById⟩,
    ⟨("/api/go/users/\x7bid\x7d"), some ("PUT"), HandlerTag.updateUserById⟩,
    ⟨("/api/go/users/\x7bid\x7d"), some ("DELETE"), HandlerTag.deleteUserById⟩ ]

/-- Split a character list on `/`, keeping empty segments, as URL paths and
route templates are segmented. -/
def splitSlash : List Char → List (List Char)
  | [] => [[]]
  | c :: rest =>
    if c = '/' then [] :: splitSlash rest
    else
      match splitSlash rest with
      | [] => [[c]]
      | seg :: segs => (c :: seg) :: segs

/-- The `/`-separated segments of a path or template. -/
def pathSegs (s : String) : List String :=
  (splitSlash s.toList).map fun cs => String.mk cs

/-- One template segment against one path segment: the `\x7bid\x7d` variable
matches any non-empty segment (mux default `[^/]+`), others literally. -/
def tmplSegMatch (t s : String) : Bool :=
  if t = ("\x7bid\x7d") then !(s == ("")) else t == s

/-- Segment-wise template match, requiring equal segment counts. -/
def segsMatch : List String → List String → Bool
  | [], [] => true
  | t :: ts, s :: ss => tmplSegMatch t s && segsMatch ts ss
  | _, _ => false

/-- Whether a route matches a method and concrete path. -/
def routeMatches (m path : String) (rt : Route) : Bool :=
  segsMatch (pathSegs rt.template) (pathSegs path) &&
    (match rt.methodRestriction with
     | none => true
     | some mm => mm == m)

/-- gorilla/mux dispatch: routes are tested in the order they were added and
the first match wins (mux documentation). -/
def dispatch (m path : String) : Option Route :=
  routes.find? (routeMatches m path)

/-- `mux.Vars(r)["id"]`: the path segment bound to the `\x7bid\x7d` slot. -/
def extractId : List String → List String → String
  | [], _ => ("")
  | _, [] => ("")
  | t :: ts, s :: ss => if t = ("\x7bid\x7d") then s else extractId ts ss

/-- Run the handler a tag names, as `main` binds them. -/
def runHandlerTag (tag : HandlerTag) (db : DB) (r : Request) (id : String)
    (s : ProcState) : ProcState :=
  match tag with
  | HandlerTag.corsHome => EnableCORS homeHandler r s
  | HandlerTag.jsonWelcomeTag => jsonWelcome r s
  | HandlerTag.listUsers => getUsers db s
  | HandlerTag.createUser => createUsers r.body db s
  | HandlerTag.getUserById => getUsersId id db s
  | HandlerTag.updateUserById => updateUser r.body id db s
  | HandlerTag.deleteUserById => deleteUser r.body id db s

/-- Serve one request through the router: first matching route wins, no
match falls to mux's default 404 handler. -/
def serve (db : DB) (r : Request) : ProcState :=
  match dispatch r.method r.path with
  | none => writeBody ("404 page not found\n") (writeHeader 404 ProcState.init)
  | some rt =>
      let id := extractId (pathSegs rt.template) (pathSegs r.path)
      runHandlerTag rt.handler db r id ProcState.init

/-- Startup steps of `main` (main.go:16-54), in program order. -/
inductive MainEvent where
  | loadEnv
  | connectDatabase
  | createTable
  | buildRouter
  | listenAndServe
  deriving Repr, DecidableEq

/-- The `log.Fatal` sites reachable during startup. -/
inductive FatalReason where
  | envLoadFailed
  | databaseUrlMissing
  | openFailed
  | pingFailed
  deriving Repr, DecidableEq

/-- The facts about the environment that decide startup: whether
`godotenv.Load()` succeeds, the value of `DATABASE_URL` after that load
(`os.Getenv` yields `""` when unset), and whether `sql.Open` / `db.Ping`
fail. -/
structure Env where
  envFileLoads : Bool
  databaseUrl : String
  openFails : Bool
  pingFails : Bool
  deriving Repr, DecidableEq

/-- `ConnectDatabase` (main.go:240): `log.Fatal` when `DATABASE_URL` is
empty, when `sql.Open` errors, or when `db.Ping` errors; otherwise ok. -/
def ConnectDatabase (e : Env) : Option FatalReason :=
  if e.databaseUrl = ("") then some FatalReason.databaseUrlMissing
  else if e.openFails then some FatalReason.openFailed
  else if e.pingFails then some FatalReason.pingFailed
  else none

/-- Outcome of running `main` up to `ListenAndServe`: the steps reached, the
fatal exit if any, and whether `CreateTable` logged an error. -/
structure StartupOutcome where
  trace : List MainEvent
  fatal : Option FatalReason
  tableErrorLogged : Bool
  deriving Repr, DecidableEq

/-- `main` (main.go:16): `godotenv.Load` (fatal on error), `ConnectDatabase`
(fatal on its errors), `CreateTable` (error only logged, main.go:232),
router construction, then `ListenAndServe`. `createTableFails` says whether
the `CREATE TABLE IF NOT EXISTS` statement errors. -/
def mainRun (e : Env) (createTableFails : Bool) : StartupOutcome :=
  if !e.envFileLoads then
    ⟨[MainEvent.loadEnv], some FatalReason.envLoadFailed, false⟩
  else
    match ConnectDatabase e with
    | some reason =>
        ⟨[MainEvent.loadEnv, MainEvent.connectDatabase], some reason, false⟩
    | none =>
        ⟨[MainEvent.loadEnv, MainEvent.connectDatabase, MainEvent.createTable,
          MainEvent.buildRouter, MainEvent.listenAndServe],
         none, createTableFails⟩

/-- A database on which every operation succeeds: inserts return id 7, the
row with id 7 is `(7, "A", "a@x.com")`, the table is empty on full scan. -/
def dbAllOk : DB :=
  ⟨fun _ _ => Except.ok 7,
   fun _ => Except.ok ⟨7, ("A"), ("a@x.com")⟩,
   fun _ _ _ => Except.ok (),
   fun _ => Except.ok (),
   Except.ok []⟩

/-- A database whose single-row lookup finds no row (`sql.ErrNoRows`) and
whose delete and full scan fail with a driver error. -/
def dbNoRows : DB :=
  ⟨fun _ _ => Except.ok 1,
   fun _ => Except.error ("sql: no rows in result set"),
   fun _ _ _ => Except.ok (),
   fun _ => Except.error ("driver: bad connection"),
   Except.error ("driver: bad connection")⟩

/-- C1: at an id matching no row, the Get-by-id handler's `Scan` error path
runs `log.Fatal`, which exits the process before the `WriteHeader(404)` that
follows it: no status is ever sent and the process does not stay alive,
contrary to the claimed 404-and-stay-alive behavior. -/
theorem c1_get_missing_row_kills_process :
    (getUsersId ("999") dbNoRows ProcState.init).terminated = true ∧
    (getUsersId ("999") dbNoRows ProcState.init).statusWritten = none := by
  exact ⟨rfl, rfl⟩

/-- C2: for a request body that fails JSON decoding (`none`), the Create and
Update handlers never check the decode error: they issue their SQL with the
zero-valued name/email fields, never write a 400, and (when the SQL itself
succeeds) the process stays alive. -/
theorem c2_decode_error_ignored (db : DB) (id : String) (n : Int) (u : User)
    (hIns : db.insertUser ("") ("") = Except.ok n)
    (hUpd : db.updateUserRow ("") ("") id = Except.ok ())
    (hSel : db.selectUserById id = Except.ok u) :
    SqlCall.insert ("") ("") ∈ (createUsers none db ProcState.init).sqlCalls ∧
    (createUsers none db ProcState.init).statusWritten ≠ some 400 ∧
    (createUsers none db ProcState.init).terminated = false ∧
    SqlCall.update ("") ("") id ∈
      (updateUser none id db ProcState.init).sqlCalls ∧
    (updateUser none id db ProcState.init).statusWritten ≠ some 400 ∧
    (updateUser none id db ProcState.init).terminated = false := by
  simp [createUsers, updateUser, zeroUser, recordSql, ProcState.init,
    hIns, hUpd, hSel, writeBody]

/-- Witness for C2 at a concrete database and id. -/
theorem c2_decode_error_ignored_witness :
    (createUsers none dbAllOk ProcState.init).terminated = false ∧
    (updateUser none ("5") dbAllOk ProcState.init).terminated = false := by
  have h := c2_decode_error_ignored dbAllOk ("5") 7
    ⟨7, ("A"), ("a@x.com")⟩ rfl rfl rfl
  exact ⟨h.2.2.1, h.2.2.2.2.2⟩

/-- A concrete `GET /` request with no body. -/
def rootGetRequest : Request := ⟨("GET"), ("/"), none⟩

/-- C3 counterexample: on a concrete `GET /`, the router dispatches to the
FIRST registration (the CORS-wrapped `homeHandler`) — gorilla/mux tries
routes in registration order and the first match wins — so the response body
is the plain-text greeting, not the JSON object of the second registration. -/
theorem c3_first_route_shadows_second :
    (dispatch ("GET") ("/")).map Route.handler = some HandlerTag.corsHome ∧
    (serve dbAllOk rootGetRequest).body =
      [("Welcome to the Backend Service in Go!\n")] ∧
    (serve dbAllOk rootGetRequest).body ≠
      [("\x7b\"Message\":\"Welcome to the Backend Service in Go!\"\x7d\n")] := by
  refine ⟨rfl, rfl, ?_⟩
  decide

/-- C3 amended: every `GET /` request is served by the first registration,
the CORS-wrapped `homeHandler`, yielding the plain-text greeting with the
three CORS headers; the second (JSON) registration is shadowed. -/
theorem c3_root_served_by_first_registration (db : DB) (r : Request)
    (hm : r.method = ("GET")) (hp : r.path = ("/")) :
    serve db r = EnableCORS homeHandler r ProcState.init ∧
    (serve db r).body = [("Welcome to the Backend Service in Go!\n")] ∧
    (serve db r).headers =
      [(("Access-Control-Allow-Origin"), ("*")),
       (("Access-Control-Allow-Methods"), ("GET, PUT, PATCH, POST, DELETE")),
       (("Access-Control-Allow-Headers"), ("Content-Type"))] := by
  obtain ⟨m, p, b⟩ := r
  subst hm
  subst hp
  exact ⟨rfl, rfl, rfl⟩

/-- Witness for C3 amended at a concrete request. -/
theorem c3_root_served_witness :
    serve dbAllOk ⟨("GET"), ("/"), none⟩ =
      EnableCORS homeHandler ⟨("GET"), ("/"), none⟩ ProcState.init :=
  (c3_root_served_by_first_registration dbAllOk ⟨("GET"), ("/"), none⟩
    rfl rfl).1

/-- C4 counterexample: when the full-table query errors, `log.Fatal`
terminates the process, so the encode of the empty list that syntactically
follows never executes — the body stays empty, refuting "continues to
attempt to encode the (empty) user list". -/
theorem c4_fatal_log_stops_execution :
    (getUsers dbNoRows ProcState.init).terminated = true ∧
    (getUsers dbNoRows ProcState.init).body = [] ∧
    (getUsers dbNoRows ProcState.init).body ≠ [encodeUsers []] := by
  refine ⟨rfl, rfl, ?_⟩
  decide

/-- C4 amended: on any query error the List handler emits a fatal log that
terminates the process; the fall-through encode is dead, so no body and no
status are ever written. -/
theorem c4_query_error_terminates (db : DB) (e : String)
    (h : db.selectAllUsers = Except.error e) :
    (getUsers db ProcState.init).terminated = true ∧
    (getUsers db ProcState.init).body = [] ∧
    (getUsers db ProcState.init).statusWritten = none := by
  simp [getUsers, recordSql, ProcState.init, h, logFatal, writeBody]

/-- Witness for C4 amended at a concrete failing database. -/
theorem c4_query_error_terminates_witness :
    (getUsers dbNoRows ProcState.init).statusWritten = none :=
  (c4_query_error_terminates dbNoRows ("driver: bad connection") rfl).2.2

/-- C5: on success the Delete handler does answer 200 with an empty body,
but on a query error `log.Fatal` exits the process before the
`WriteHeader(500)` that follows it — the client never receives the 500 the
claim (and the code's own dead write) intends. -/
theorem c5_delete_error_kills_process_before_500 :
    (deleteUser none ("5") dbAllOk ProcState.init).statusWritten = some 200 ∧
    (deleteUser none ("5") dbAllOk ProcState.init).body = [] ∧
    (deleteUser none ("5") dbNoRows ProcState.init).terminated = true ∧
    (deleteUser none ("5") dbNoRows ProcState.init).statusWritten = none := by
  exact ⟨rfl, rfl, rfl, rfl⟩

/-- C6: on a successful insert the Create handler's `Scan` overwrites the
decoded id with the database-generated one, so the response carries the
generated id with the submitted name/email; the SQL binds only name and
email, and the whole handler is independent of any client-submitted id. -/
theorem c6_create_uses_generated_id (db : DB) (u : User) (gen : Int)
    (h : db.insertUser u.name u.email = Except.ok gen) :
    (createUsers (some u) db ProcState.init).body =
      [encodeUser ⟨gen, u.name, u.email⟩] ∧
    SqlCall.insert u.name u.email ∈
      (createUsers (some u) db ProcState.init).sqlCalls ∧
    ∀ otherId : Int,
      createUsers (some { u with id := otherId }) db ProcState.init =
        createUsers (some u) db ProcState.init := by
  obtain ⟨i, nm, em⟩ := u
  simp only [createUsers, Option.getD_some] at h ⊢
  simp [recordSql, ProcState.init, h, writeBody]

/-- Witness for C6: a client-submitted id 42 is ignored; the response
carries the generated id 7 with the submitted name/email. -/
theorem c6_create_uses_generated_id_witness :
    (createUsers (some ⟨42, ("A"), ("a@x.com")⟩) dbAllOk ProcState.init).body =
      [encodeUser ⟨7, ("A"), ("a@x.com")⟩] :=
  (c6_create_uses_generated_id dbAllOk ⟨42, ("A"), ("a@x.com")⟩ 7 rfl).1

/-- C7: the middleware sets the three CORS headers on every request, and an
`OPTIONS` request short-circuits with status 200 and an empty body, the
result not depending on the wrapped handler at all. -/
theorem c7_cors_headers_and_options (r : Request) :
    (("Access-Control-Allow-Origin"), ("*")) ∈
      (EnableCORS homeHandler r ProcState.init).headers ∧
    (("Access-Control-Allow-Methods"), ("GET, PUT, PATCH, POST, DELETE")) ∈
      (EnableCORS homeHandler r ProcState.init).headers ∧
    (("Access-Control-Allow-Headers"), ("Content-Type")) ∈
      (EnableCORS homeHandler r ProcState.init).headers ∧
    (r.method = ("OPTIONS") →
      (EnableCORS homeHandler r ProcState.init).statusWritten = some 200 ∧
      (EnableCORS homeHandler r ProcState.init).body = [] ∧
      ∀ next nextB : Request → ProcState → ProcState,
        EnableCORS next r ProcState.init = EnableCORS nextB r ProcState.init) := by
  by_cases h : r.method = ("OPTIONS") <;>
    simp [EnableCORS, setHeader, writeHeader, writeBody, homeHandler,
      ProcState.init, h]

/-- Witness for C7 at a concrete `OPTIONS` request. -/
theorem c7_cors_witness :
    (EnableCORS homeHandler ⟨("OPTIONS"), ("/"), none⟩
        ProcState.init).statusWritten = some 200 ∧
    (EnableCORS homeHandler ⟨("OPTIONS"), ("/"), none⟩
        ProcState.init).body = [] := by
  have h := c7_cors_headers_and_options ⟨("OPTIONS"), ("/"), none⟩
  exact ⟨(h.2.2.2 rfl).1, (h.2.2.2 rfl).2.1⟩

/-- C8: once the environment file loads, a `CREATE TABLE` failure is only
logged and startup still reaches `ListenAndServe`, whereas every storage
handle failure reported by `ConnectDatabase` (missing `DATABASE_URL`, open
error, ping error) is fatal and `ListenAndServe` is never reached. -/
theorem c8_schema_failure_nonfatal (e : Env) (ct : Bool)
    (hEnv : e.envFileLoads = true) :
    (ConnectDatabase e = none →
      (mainRun e ct).fatal = none ∧
      MainEvent.listenAndServe ∈ (mainRun e ct).trace ∧
      (mainRun e ct).tableErrorLogged = ct) ∧
    (∀ reason, ConnectDatabase e = some reason →
      (mainRun e ct).fatal = some reason ∧
      MainEvent.listenAndServe ∉ (mainRun e ct).trace) := by
  constructor
  · intro h
    simp [mainRun, hEnv, h]
  · intro reason h
    simp [mainRun, hEnv, h]

/-- Environment where everything is configured and the database is up. -/
def envGood : Env := ⟨true, ("postgres://db"), false, false⟩

/-- Witness for C8: with a healthy environment and a failing
`CREATE TABLE`, startup logs the error and still reaches the listener. -/
theorem c8_schema_failure_nonfatal_witness :
    (mainRun envGood true).fatal = none ∧
    MainEvent.listenAndServe ∈ (mainRun envGood true).trace ∧
    (mainRun envGood true).tableErrorLogged = true :=
  (c8_schema_failure_nonfatal envGood true rfl).1 rfl

/-- Environment with no `.env` file and `DATABASE_URL` unset. -/
def envNoFileNoUrl : Env := ⟨false, (""), false, false⟩

/-- C9 counterexample: in a run where `DATABASE_URL` is unset but the `.env`
file also fails to load, the process terminates during `godotenv.Load` —
`ConnectDatabase` is never reached — refuting "terminates ... during
ConnectDatabase" for every such run. -/
theorem c9_env_load_fatal_precedes_connect :
    envNoFileNoUrl.databaseUrl = ("") ∧
    (mainRun envNoFileNoUrl false).fatal = some FatalReason.envLoadFailed ∧
    (mainRun envNoFileNoUrl false).fatal ≠
      some FatalReason.databaseUrlMissing ∧
    MainEvent.connectDatabase ∉ (mainRun envNoFileNoUrl false).trace := by
  refine ⟨rfl, rfl, ?_, ?_⟩ <;> decide

/-- C9 amended: whenever `DATABASE_URL` is unset the run is fatal before the
listener is ever reached; and when additionally the `.env` file loads, the
termination is the configuration error inside `ConnectDatabase`, with the
trace stopping there. -/
theorem c9_no_listener_when_url_unset (e : Env) (ct : Bool)
    (hUrl : e.databaseUrl = ("")) :
    MainEvent.listenAndServe ∉ (mainRun e ct).trace ∧
    (mainRun e ct).fatal ≠ none ∧
    (e.envFileLoads = true →
      (mainRun e ct).fatal = some FatalReason.databaseUrlMissing ∧
      (mainRun e ct).trace = [MainEvent.loadEnv, MainEvent.connectDatabase]) := by
  by_cases hEnv : e.envFileLoads = true
  · simp [mainRun, hEnv, ConnectDatabase, hUrl]
  · simp only [Bool.not_eq_true] at hEnv
    simp [mainRun, hEnv]

/-- Environment where the `.env` file loads but `DATABASE_URL` is unset. -/
def envFileOkNoUrl : Env := ⟨true, (""), false, false⟩

/-- Witness for C9 amended at a concrete environment. -/
theorem c9_no_listener_witness :
    MainEvent.listenAndServe ∉ (mainRun envFileOkNoUrl false).trace ∧
    (mainRun envFileOkNoUrl false).fatal =
      some FatalReason.databaseUrlMissing := by
  have h := c9_no_listener_when_url_unset envFileOkNoUrl false rfl
  exact ⟨h.1, (h.2.2 rfl).1⟩

/-- C10: whenever `godotenv.Load` fails, `main` terminates fatally at its
very first step, before `ConnectDatabase` (hence before any database
connection), whatever the rest of the environment holds. -/
theorem c10_env_load_failure_fatal_first (e : Env) (ct : Bool)
    (h : e.envFileLoads = false) :
    (mainRun e ct).fatal = some FatalReason.envLoadFailed ∧
    (mainRun e ct).trace = [MainEvent.loadEnv] ∧
    MainEvent.connectDatabase ∉ (mainRun e ct).trace := by
  simp [mainRun, h]

/-- Environment with `DATABASE_URL` (and everything else) fine but the
`.env` file missing. -/
def envVarsSetNoFile : Env := ⟨false, ("postgres://db"), false, false⟩

/-- Witness for C10: the `.env` load failure is fatal even though
`DATABASE_URL` is set in the process environment. -/
theorem c10_env_load_failure_witness :
    envVarsSetNoFile.databaseUrl ≠ ("") ∧
    (mainRun envVarsSetNoFile false).fatal = some FatalReason.envLoadFailed ∧
    MainEvent.connectDatabase ∉ (mainRun envVarsSetNoFile false).trace :=
  ⟨by decide,
   (c10_env_load_failure_fatal_first envVarsSetNoFile false rfl).1,
   (c10_env_load_failure_fatal_first envVarsSetNoFile false rfl).2.2⟩

end GoNext
